import Mathlib

/-!
Verification of the asynchronous SFTP layer of the mfatfm file manager.

The definitions below are a shallow embedding of the Python package
`src/mfatfm` (files `fileops.py` and `connection.py`).  Pure helpers become
Lean functions; the worker-pool submission machinery is modelled as explicit
data (what was queued, what the body produces when the pool runs it, which
callbacks the completion hook dispatches); Python exceptions become
`Except String`.  Byte counts are `Nat`, SFTP sizes are `Int` (Python int),
timestamps and progress fractions are `Rat` (Python float, whose rounding
plays no role in any property proved here).  Progress status strings are
modelled as structured values (`Msg`) carrying the data interpolated into
the corresponding f-string.
-/

namespace Mfatfm

/-! ## String helpers

Python string primitives used by `connection.py`, modelled on the character
list underlying `String` so that every definition evaluates by `decide`.
`startswith s p` is Python `s.startswith(p)`, `strDrop1 s` is Python `s[1:]`
(both files only ever slice one character off), and `joinPath` is POSIX
`os.path.join` restricted to the two-argument form used by the sources. -/

def leadsWith : List Char → List Char → Bool
  | [], _ => true
  | _ :: _, [] => false
  | a :: as, b :: bs => a == b && leadsWith as bs

def startswith (s pre : String) : Bool :=
  leadsWith pre.data s.data

def strDrop1 (s : String) : String :=
  String.mk (s.data.drop 1)

def strEndsWithSlash (s : String) : Bool :=
  match s.data.getLast? with
  | some c => c == '/'
  | none => false

def joinPath (a b : String) : String :=
  if startswith b "/" then b
  else if a == "" || strEndsWithSlash a then a ++ b
  else (a ++ "/") ++ b

/-! ## Data model (`fileops.py`)

`FileEntry` embeds the `@dataclass` of `fileops.py` lines 13-21: five plain
fields, no `__post_init__`, hence no validation of any kind.  `stat_isdir`
embeds `fileops.py` lines 49-52: `bool(attr.st_mode & 0o40000)`.  `S_ISDIR`
embeds the CPython `stat.S_ISDIR` test (`S_IFMT(mode) == S_IFDIR`, i.e. a
comparison of the full file-type field) that `_mode_to_str` uses at
`fileops.py` line 40; it is included to contrast the two classifiers. -/

structure FileEntry where
  name : String
  is_dir : Bool
  size : Int
  modified : Rat
  item_count : Option Nat
deriving DecidableEq

def stat_isdir (st_mode : Nat) : Bool :=
  st_mode &&& 0o40000 != 0

def S_ISDIR (mode : Nat) : Bool :=
  mode &&& 0o170000 == 0o40000

/-- The subset of a paramiko `SFTPAttributes` record read by the sources. -/
structure SFTPAttributes where
  filename : String
  st_mode : Nat
  st_size : Int
  st_mtime : Rat
deriving DecidableEq

/-- The `FileEntry(...)` construction inside `listdir._impl`
(`connection.py` lines 219-227): every field is passed through from the
attribute record unchanged. -/
def entryFromAttr (attr : SFTPAttributes) (item_count : Option Nat) : FileEntry :=
  { name := attr.filename
    is_dir := stat_isdir attr.st_mode
    size := attr.st_size
    modified := attr.st_mtime
    item_count := item_count }

/-! ## Session surface and operation submission (`connection.py`)

`SftpSession` models the slice of the paramiko `SFTPClient` interface that
`AsyncSFTPManager` calls: `listdir_attr`, `normalize(".")` and `mkdir`.
Remote failures are `Except.error`.  `AsyncSFTPManager._sftp` is an
`Option SftpSession`: `none` while disconnected. -/

structure SftpSession where
  listdir_attr : String → Except String (List SFTPAttributes)
  normalizeDot : Except String String
  mkdirAt : String → Except String Unit

/-- Result of calling a public operation method on the manager, embedding
`_submit` (`connection.py` lines 114-136): the method unconditionally hands
the body to the executor (`queued = true`), never raises on the calling
thread (`syncException = none`), and `body` is the outcome the worker
produces when the pool eventually runs the task. -/
structure Submission (α : Type) where
  queued : Bool
  syncException : Option String
  body : Except String α

def submitOp {α : Type} (body : Except String α) : Submission α :=
  { queued := true, syncException := none, body := body }

/-- The callbacks the completion hook of `_submit`, `_done` (`connection.py`
lines 123-135) can dispatch back to the UI thread. -/
inductive TerminalCallback
  | onSuccess
  | onErrorHandler
  | operationErrorSignal
deriving DecidableEq

/-- The exact dispatch logic of `_done`: an exception goes to the dedicated
`on_error` handler when one was supplied, otherwise to the generic
`operation-error` signal; a normal return goes to `on_success` when one was
supplied, otherwise nothing at all is dispatched. -/
def doneCallbacks {α : Type} (result : Except String α)
    (hasOnSuccess hasOnError : Bool) : List TerminalCallback :=
  match result with
  | Except.error _ => if hasOnError then [TerminalCallback.onErrorHandler]
                      else [TerminalCallback.operationErrorSignal]
  | Except.ok _ => if hasOnSuccess then [TerminalCallback.onSuccess] else []

/-! ## `listdir` and home-directory resolution (`connection.py` lines 159-234) -/

/-- The ordered probe list of `connection.py` lines 182-186. -/
def probeHomes (username : String) : List String :=
  ["/home/" ++ username, "/Users/" ++ username, "/export/home/" ++ username]

/-- The probe loop of lines 187-197: attempt `listdir_attr` on each
candidate, keep the first that does not raise. -/
def findHome (s : SftpSession) : List String → Option String
  | [] => none
  | h :: rest =>
    match s.listdir_attr h with
    | Except.ok _ => some h
    | Except.error _ => findHome s rest

/-- Home expansion, `connection.py` lines 164-203.  The outer
`except Exception` of lines 201-203 wraps code that cannot raise (every probe
is individually guarded) and computes the same fallback string, so it has no
separate branch here. -/
def expandPath (s : SftpSession) (username path : String) : String :=
  if path == "~" || startswith path "~/" then
    match s.normalizeDot with
    | Except.ok home_path =>
      if path == "~" then home_path else home_path ++ strDrop1 path
    | Except.error _ =>
      match findHome s (probeHomes username) with
      | some possible_home =>
        if path == "~" then possible_home else possible_home ++ strDrop1 path
      | none =>
        ("/home/" ++ username) ++ (if startswith path "~/" then strDrop1 path else "")
  else path

/-- The per-entry item count of lines 209-217: one extra listing of the
subdirectory, `none` when that nested listing raises or when the entry is
not a directory. -/
def itemCountFor (s : SftpSession) (expanded_path : String)
    (attr : SFTPAttributes) : Option Nat :=
  if stat_isdir attr.st_mode then
    match s.listdir_attr (joinPath expanded_path attr.filename) with
    | Except.ok sub => some sub.length
    | Except.error _ => none
  else none

/-- The body `_impl` of `listdir` (lines 160-228).  With `_sftp = None` the
first statement executed is `assert self._sftp is not None`, which raises
before any remote call; otherwise the path is expanded, the directory is
listed and each attribute record becomes a `FileEntry`. -/
def listdirBody (sftp : Option SftpSession) (username path : String) :
    Except String (String × List FileEntry) :=
  match sftp with
  | none => Except.error "AssertionError"
  | some s =>
    let expanded_path := expandPath s username path
    match s.listdir_attr expanded_path with
    | Except.error e => Except.error e
    | Except.ok attrs =>
      Except.ok (expanded_path,
        attrs.map (fun attr => entryFromAttr attr (itemCountFor s expanded_path attr)))

/-- `listdir` as called by the UI (lines 230-234): submission of the body.
It supplies both a success handler (emitting `directory-loaded`) and an
error handler (emitting `operation-error`). -/
def listdirOpCall (sftp : Option SftpSession) (username path : String) :
    Submission (String × List FileEntry) :=
  submitOp (listdirBody sftp username path)

/-- The body of `mkdir` (line 238): `self._sftp.mkdir(path)`.  With
`_sftp = None` evaluating the attribute access raises `AttributeError`
before any remote call. -/
def mkdirBody (sftp : Option SftpSession) (path : String) : Except String Unit :=
  match sftp with
  | none => Except.error "AttributeError"
  | some s => s.mkdirAt path

/-- `mkdir` as called by the UI (lines 236-240): submission of the body,
with a success handler (the follow-up `listdir`) but no error handler. -/
def mkdirCall (sftp : Option SftpSession) (path : String) : Submission Unit :=
  submitOp (mkdirBody sftp path)

/-! ## Progress signal and transfers (`connection.py` lines 37-55, 262-358)

The `progress` GObject signal is declared at line 44 with parameter tuple
`(float, str)`.  `progress_signal_params` embeds that declaration;
`spec_progress_signal_params` is modelled from the words of the spec, which
describe a `(fraction, status message, instantaneous rate)` triple, for
comparison with the declaration actually in the code.

A transfer is driven by the sequence of `(transferred, total)` pairs with
which paramiko invokes the progress callback; `TransferStep` is one such
pair.  Cancellation (`future.cancel`, lines 307-311 and 352-356) adds the
operation id to `_cancelled_operations` at some point during the transfer;
`cancelPoint = some k` means membership becomes visible from the `k`-th
callback invocation onward (`none`: never cancelled), which is exactly how
the polling checks at lines 272 and 324 observe it. -/

inductive SigParamType
  | float
  | str
deriving DecidableEq

/-- `"progress": (GObject.SignalFlags.RUN_FIRST, None, (float, str))`,
`connection.py` line 44. -/
def progress_signal_params : List SigParamType :=
  [SigParamType.float, SigParamType.str]

/-- Modelled from the spec: a progress callback invoked with
`(fraction: 0..1, status message: string, instantaneous rate: bytes/sec)`. -/
def spec_progress_signal_params : List SigParamType :=
  [SigParamType.float, SigParamType.str, SigParamType.float]

structure TransferStep where
  transferred : Nat
  total : Nat
deriving DecidableEq

/-- Status strings of the progress emissions, as structured values carrying
the data the code interpolates into the corresponding f-strings. -/
inductive Msg
  | startingDownload
  | downloadedOf (transferred total : Nat)
  | downloadedBytes (transferred : Nat)
  | downloadComplete
  | downloadCancelled
  | startingUpload
  | uploadedOf (transferred total : Nat)
  | uploadedBytes (transferred : Nat)
  | uploadComplete
  | uploadCancelled
deriving DecidableEq

/-- One payload of `self.emit("progress", fraction, message)`: the two
values the signal carries. -/
structure ProgressEmission where
  fraction : Rat
  message : Msg
deriving DecidableEq

/-- The non-cancelled part of the `progress_callback` of `download._impl`
(lines 275-282): fraction `transferred / total` when the total is known,
otherwise `0.0`.  No clock is read and no rate is computed. -/
def periodicDownloadEmit (st : TransferStep) : ProgressEmission :=
  if 0 < st.total then
    { fraction := (st.transferred : Rat) / (st.total : Rat)
      message := Msg.downloadedOf st.transferred st.total }
  else
    { fraction := 0, message := Msg.downloadedBytes st.transferred }

/-- The analogous part of the `progress_callback` of `upload._impl`
(lines 327-334). -/
def periodicUploadEmit (st : TransferStep) : ProgressEmission :=
  if 0 < st.total then
    { fraction := (st.transferred : Rat) / (st.total : Rat)
      message := Msg.uploadedOf st.transferred st.total }
  else
    { fraction := 0, message := Msg.uploadedBytes st.transferred }

/-- Whether the operation id is in `_cancelled_operations` at the `i`-th
progress-callback invocation. -/
def cancelledAt (cancelPoint : Option Nat) (i : Nat) : Bool :=
  match cancelPoint with
  | none => false
  | some k => decide (k ≤ i)

/-- The callback loop both transfers share (lines 270-282 and 322-334):
each invocation first polls the cancellation set and raises
`TransferCancelledException` when the id is present (second component
`true`), otherwise emits one progress payload and continues. -/
def runTransferCallbacks (emit : TransferStep → ProgressEmission)
    (cancelPoint : Option Nat) :
    List TransferStep → Nat → List ProgressEmission × Bool
  | [], _ => ([], false)
  | st :: rest, i =>
    if cancelledAt cancelPoint i then ([], true)
    else
      let r := runTransferCallbacks emit cancelPoint rest (i + 1)
      (emit st :: r.1, r.2)

/-- Observable outcome of `download._impl` (lines 266-301): the progress
payloads emitted, whether a file is left at the local destination when the
body terminates, and whether the body went through the cancellation path or
saw the cancellation mark at the final membership check. -/
structure DownloadResult where
  emissions : List ProgressEmission
  destinationExists : Bool
  cancelled : Bool
deriving DecidableEq

/-- `download._impl` (lines 266-301): emit `(0.0, "Starting download…")`;
run `sftp.get` whose callback loop is `runTransferCallbacks`.  If the loop
raised, the `except TransferCancelledException` handler unlinks the partial
destination file and emits `(0.0, "Download cancelled")`.  If `get` returned
and the id is not in the cancellation set, emit `(1.0, "Download complete")`;
if the id entered the set after the last callback, the completion emission is
suppressed but the fully written destination file stays in place. -/
def downloadRun (sched : List TransferStep) (cancelPoint : Option Nat) :
    DownloadResult :=
  match runTransferCallbacks periodicDownloadEmit cancelPoint sched 0 with
  | (es, true) =>
    { emissions := { fraction := 0, message := Msg.startingDownload } :: es
        ++ [{ fraction := 0, message := Msg.downloadCancelled }]
      destinationExists := false
      cancelled := true }
  | (es, false) =>
    if cancelledAt cancelPoint sched.length then
      { emissions := { fraction := 0, message := Msg.startingDownload } :: es
        destinationExists := true
        cancelled := true }
    else
      { emissions := { fraction := 0, message := Msg.startingDownload } :: es
          ++ [{ fraction := 1, message := Msg.downloadComplete }]
        destinationExists := true
        cancelled := false }

/-- Observable outcome of `upload._impl` (lines 318-346).
`cancelCleanupOps` records the remote paths the cancellation handler asks
the session to remove: the `except TransferCancelledException` branch
(lines 341-343) only emits `(0.0, "Upload cancelled")` and performs no
remote call, so the list is empty on every path.  `remoteFileExists` is
whether the (partially or fully written) remote destination file is still
present when the body terminates. -/
structure UploadResult where
  emissions : List ProgressEmission
  cancelCleanupOps : List String
  remoteFileExists : Bool
  cancelled : Bool
deriving DecidableEq

def uploadRun (sched : List TransferStep) (cancelPoint : Option Nat) :
    UploadResult :=
  match runTransferCallbacks periodicUploadEmit cancelPoint sched 0 with
  | (es, true) =>
    { emissions := { fraction := 0, message := Msg.startingUpload } :: es
        ++ [{ fraction := 0, message := Msg.uploadCancelled }]
      cancelCleanupOps := []
      remoteFileExists := true
      cancelled := true }
  | (es, false) =>
    if cancelledAt cancelPoint sched.length then
      { emissions := { fraction := 0, message := Msg.startingUpload } :: es
        cancelCleanupOps := []
        remoteFileExists := true
        cancelled := true }
    else
      { emissions := { fraction := 0, message := Msg.startingUpload } :: es
          ++ [{ fraction := 1, message := Msg.uploadComplete }]
        cancelCleanupOps := []
        remoteFileExists := true
        cancelled := false }

/-- `true` when no emission of the run reports fraction `1.0`. -/
def noFullFraction (r : DownloadResult) : Bool :=
  r.emissions.all (fun e => e.fraction != 1)

/-! ## `remove` and the worker pool (`connection.py` lines 242-254)

`remove(path)` submits a body that first tries `sftp.remove(path)`; on
`IOError` (the target is a directory) it lists the children, calls the
public asynchronous `self.remove(child)` on each — which only SUBMITS a
child task to the executor and returns a `Future` — and then immediately
calls `sftp.rmdir(path)` in the same body, without awaiting any child task.

`removeTraceFIFO` records the sequence of remote calls issued when the
executor runs tasks one at a time in FIFO submission order (an admissible
schedule of the 4-worker `ThreadPoolExecutor`: a task submitted while a body
runs starts only after that body finishes).  A queue element is a pending
`remove._impl` task, given by the path argument and the (sub)tree actually
on the server at that path; `remove` on a directory fails with `IOError`,
`listdir` returns the children.  The follow-up `listdir` of the parent fired
by the success callback of each task only appends further listings after the
trace shown here and is omitted. -/

inductive RemoteOp
  | removeFile (path : String)
  | listdirOp (path : String)
  | rmdirOp (path : String)
deriving DecidableEq, BEq

inductive FsNode
  | file (name : String)
  | dir (name : String) (children : List FsNode)

def FsNode.name : FsNode → String
  | FsNode.file n => n
  | FsNode.dir n _ => n

mutual

def FsNode.size : FsNode → Nat
  | FsNode.file _ => 1
  | FsNode.dir _ cs => 1 + FsNode.sizeList cs

def FsNode.sizeList : List FsNode → Nat
  | [] => 0
  | c :: rest => FsNode.size c + FsNode.sizeList rest

end

def queueSize : List (String × FsNode) → Nat
  | [] => 0
  | q :: rest => (q.2).size + queueSize rest

theorem queueSize_append (a b : List (String × FsNode)) :
    queueSize (a ++ b) = queueSize a + queueSize b := by
  induction a with
  | nil => simp [queueSize]
  | cons q rest ih => simp [queueSize, ih]; ring

theorem queueSize_map_children (p : String) (cs : List FsNode) :
    queueSize (cs.map (fun c => (joinPath p c.name, c))) = FsNode.sizeList cs := by
  induction cs with
  | nil => simp [queueSize, FsNode.sizeList]
  | cons c rest ih => simp [queueSize, FsNode.sizeList, ih]

def removeTraceFIFO (queue : List (String × FsNode)) : List RemoteOp :=
  match queue with
  | [] => []
  | (p, FsNode.file _) :: rest => RemoteOp.removeFile p :: removeTraceFIFO rest
  | (p, FsNode.dir _ cs) :: rest =>
    RemoteOp.removeFile p :: RemoteOp.listdirOp p :: RemoteOp.rmdirOp p ::
      removeTraceFIFO (rest ++ cs.map (fun c => (joinPath p c.name, c)))
termination_by queueSize queue
decreasing_by
all_goals simp [queueSize, FsNode.size, queueSize_append, queueSize_map_children]
all_goals omega

/-- The remote-call trace of a single `remove(path)` request against the
tree `t`, under the FIFO schedule. -/
def removeTrace (path : String) (t : FsNode) : List RemoteOp :=
  removeTraceFIFO [(path, t)]

/-! ## Theorems -/

/-- C1: the claim states that `remove` on a non-empty directory removes all
descendants before issuing `rmdir`.  In the code, the body of `remove._impl`
submits each child removal asynchronously via the public `self.remove` and
then calls `sftp.rmdir(path)` immediately, without awaiting the child tasks.
Under the FIFO schedule of the executor, removing the directory `/d` that
contains one file `a` issues `rmdir /d` strictly before the removal of the
descendant `/d/a` (so the `rmdir` hits a still non-empty directory). -/
theorem C1_rmdir_issued_before_descendant_removal :
    removeTrace "/d" (FsNode.dir "d" [FsNode.file "a"]) =
      [RemoteOp.removeFile "/d", RemoteOp.listdirOp "/d", RemoteOp.rmdirOp "/d",
       RemoteOp.removeFile "/d/a"] ∧
    (removeTrace "/d" (FsNode.dir "d" [FsNode.file "a"])).indexOf (RemoteOp.rmdirOp "/d") <
      (removeTrace "/d" (FsNode.dir "d" [FsNode.file "a"])).indexOf
        (RemoteOp.removeFile "/d/a") := by
  have h : removeTrace "/d" (FsNode.dir "d" [FsNode.file "a"]) =
      [RemoteOp.removeFile "/d", RemoteOp.listdirOp "/d", RemoteOp.rmdirOp "/d",
       RemoteOp.removeFile "/d/a"] := by
    simp [removeTrace, removeTraceFIFO, joinPath, startswith, leadsWith,
      strEndsWithSlash, FsNode.name]
  refine ⟨h, ?_⟩
  rw [h]
  decide

/-- C2 counterexample: the claim states that an operation issued while
disconnected fails immediately and synchronously rather than queuing work on
the pool.  Calling `listdir` with `_sftp = None` queues the body on the
executor, raises nothing on the calling thread, and only the queued body
fails (with the `assert` at line 162) when the pool runs it. -/
theorem C2_disconnected_listdir_queues_work :
    (listdirOpCall none "alice" "/tmp").queued = true ∧
    (listdirOpCall none "alice" "/tmp").syncException = none ∧
    (listdirOpCall none "alice" "/tmp").body = Except.error "AssertionError" :=
  ⟨rfl, rfl, rfl⟩

/-- C2 amended: while disconnected, `listdir` and `mkdir` still queue their
bodies on the pool and raise nothing synchronously; the body fails at its
first access to the missing SFTP session, before performing any remote call,
and the failure is delivered asynchronously through the error
path — `listdir` through its dedicated error handler (which emits
`operation-error`), `mkdir` through the generic `operation-error` signal. -/
theorem C2_disconnected_ops_fail_asynchronously (username path : String) :
    (listdirOpCall none username path).queued = true ∧
    (listdirOpCall none username path).syncException = none ∧
    (listdirOpCall none username path).body = Except.error "AssertionError" ∧
    doneCallbacks (listdirBody none username path) false true
      = [TerminalCallback.onErrorHandler] ∧
    (mkdirCall none path).queued = true ∧
    (mkdirCall none path).syncException = none ∧
    (mkdirCall none path).body = Except.error "AttributeError" ∧
    doneCallbacks (mkdirBody none path) true false
      = [TerminalCallback.operationErrorSignal] :=
  ⟨rfl, rfl, rfl, rfl, rfl, rfl, rfl, rfl⟩

/-- C3 counterexample: the claim states that every submitted operation gets
exactly one terminal callback, including operations submitted without an
explicit success handler.  `_done` dispatches nothing at all when the body
returns normally and no `on_success` was supplied — exactly the situation of
`download`, `upload` and the directory transfers, which are submitted as
`self._submit(_impl)` with neither handler. -/
theorem C3_success_without_handler_dispatches_nothing :
    (doneCallbacks (Except.ok () : Except String Unit) false false).length = 0 :=
  rfl

/-- C3 amended: a body that raises gets exactly one terminal callback (the
dedicated error handler when supplied, else the generic `operation-error`
signal); a body that returns normally gets exactly one success callback when
an `on_success` was supplied, and no terminal callback at all otherwise. -/
theorem C3_terminal_callback_dispatch {α : Type} (e : String) (a : α)
    (hs he : Bool) :
    (doneCallbacks (Except.error e : Except String α) hs he).length = 1 ∧
    doneCallbacks (Except.ok a : Except String α) true he
      = [TerminalCallback.onSuccess] ∧
    doneCallbacks (Except.ok a : Except String α) false he = [] := by
  refine ⟨?_, rfl, rfl⟩
  simp only [doneCallbacks]
  cases he <;> rfl

/-- C7 counterexample: the claim states that constructing a `FileEntry` with
an empty name is rejected.  `FileEntry` is a plain dataclass with no
validation, and `listdir` builds entries directly from `attr.filename`; an
attribute record with an empty filename yields a `FileEntry` whose name is
empty. -/
theorem C7_empty_name_not_rejected :
    (entryFromAttr ⟨"", 0o100644, 10, 5⟩ none).name = "" :=
  rfl

/-- C7 amended: `FileEntry` construction performs no validation; the name is
stored exactly as given (empty names included), so no construction is ever
rejected. -/
theorem C7_name_stored_verbatim (attr : SFTPAttributes) (c : Option Nat) :
    (entryFromAttr attr c).name = attr.filename :=
  rfl

/-- C8 counterexample: the claim states that negative sizes and timestamps
are clamped to 0 at construction.  Neither the dataclass nor the `listdir`
construction site clamps anything: an attribute record with `st_size = -5`
and `st_mtime = -7` yields a `FileEntry` storing those negative values. -/
theorem C8_negatives_not_clamped :
    (entryFromAttr ⟨"f", 0o100644, -5, -7⟩ none).size = -5 ∧
    (entryFromAttr ⟨"f", 0o100644, -5, -7⟩ none).modified = -7 :=
  ⟨rfl, rfl⟩

/-- C8 amended: `size` and `modified` are stored verbatim from the SFTP
attribute record, negative inputs included; no clamping is performed. -/
theorem C8_size_mtime_stored_verbatim (attr : SFTPAttributes) (c : Option Nat) :
    (entryFromAttr attr c).size = attr.st_size ∧
    (entryFromAttr attr c).modified = attr.st_mtime :=
  ⟨rfl, rfl⟩

/-- C10: `stat_isdir` tests the single `0o40000` bit of `st_mode` (bit 14),
not the full file-type field: a socket mode `0o140000` (whose type bits
include `0o40000`) is classified as a directory even though the
full-field test `S_ISDIR` rejects it, while a symlink mode `0o120000`
is not. -/
theorem C10_stat_isdir_is_single_bit_test :
    (∀ m : Nat, stat_isdir m = m.testBit 14) ∧
    stat_isdir 0o140000 = true ∧
    stat_isdir 0o120000 = false ∧
    S_ISDIR 0o140000 = false ∧
    stat_isdir 0o140000 ≠ S_ISDIR 0o140000 := by
  refine ⟨?_, by decide, by decide, by decide, by decide⟩
  intro m
  have h : m &&& 0o40000 = (m.testBit 14).toNat * 2 ^ 14 := by
    have h14 : (0o40000 : Nat) = 2 ^ 14 := by norm_num
    rw [h14, Nat.and_two_pow]
  simp only [stat_isdir, h]
  cases hb : m.testBit 14 <;> simp [hb]

/-- When the cancellation mark becomes visible at callback index `k` and the
schedule still has a callback at that index, the loop emits exactly the
payloads of the first `k` steps and then raises. -/
theorem runTransferCallbacks_raises (emit : TransferStep → ProgressEmission)
    (sched : List TransferStep) : ∀ i k : Nat, i ≤ k → k - i < sched.length →
    runTransferCallbacks emit (some k) sched i =
      ((sched.take (k - i)).map emit, true) := by
  induction sched with
  | nil =>
    intro i k _ h
    simp at h
  | cons st rest ih =>
    intro i k hik hlt
    by_cases h : k ≤ i
    · have hk : k = i := Nat.le_antisymm h hik
      subst hk
      simp [runTransferCallbacks, cancelledAt]
    · have h1 : i + 1 ≤ k := by omega
      have h2 : k - (i + 1) < rest.length := by
        simp only [List.length_cons] at hlt
        omega
      have hne : cancelledAt (some k) i = false := by
        simp only [cancelledAt, decide_eq_false_iff_not]
        omega
      have h3 : k - i = (k - (i + 1)) + 1 := by omega
      simp only [runTransferCallbacks, hne, Bool.false_eq_true, if_false,
        ih (i + 1) k h1 h2, h3, List.take_succ_cons, List.map_cons]

/-- A periodic payload produced while the transfer is still strictly short
of the total reports a fraction different from `1.0`. -/
theorem periodicDownloadEmit_fraction_ne_one (st : TransferStep)
    (h : st.transferred < st.total) :
    ((periodicDownloadEmit st).fraction != 1) = true := by
  have hpos : 0 < st.total := Nat.lt_of_le_of_lt (Nat.zero_le _) h
  have hq : (0 : Rat) < st.total := by exact_mod_cast hpos
  simp only [periodicDownloadEmit, if_pos hpos, bne_iff_ne, ne_eq]
  intro hcontra
  rw [div_eq_iff (ne_of_gt hq), one_mul] at hcontra
  have : st.transferred = st.total := by exact_mod_cast hcontra
  omega

/-- C4 counterexample: the claim states that for every transfer cancelled
before completion the progress callback is never invoked with fraction 1.0
and no destination file remains.  If the cancellation mark is set after the
final periodic callback but before the membership check that follows
`sftp.get` (the very window that check exists for), the body treats the
operation as cancelled, yet the final periodic callback has already emitted
fraction 1.0 (`transferred = total`) and the fully written destination file
is left on disk. -/
theorem C4_late_cancel_full_fraction_and_file_remains :
    cancelledAt (some 1) ([(⟨100, 100⟩ : TransferStep)].length) = true ∧
    (downloadRun [⟨100, 100⟩] (some 1)).cancelled = true ∧
    noFullFraction (downloadRun [⟨100, 100⟩] (some 1)) = false ∧
    (downloadRun [⟨100, 100⟩] (some 1)).destinationExists = true := by
  have hfrac : (periodicDownloadEmit ⟨100, 100⟩).fraction = 1 := by
    simp [periodicDownloadEmit]
  have hrun : downloadRun [⟨100, 100⟩] (some 1) =
      { emissions := [{ fraction := 0, message := Msg.startingDownload },
                      periodicDownloadEmit ⟨100, 100⟩],
        destinationExists := true
        cancelled := true } := rfl
  refine ⟨by decide, by rw [hrun], ?_, by rw [hrun]⟩
  simp [noFullFraction, hrun, hfrac]

/-- C4 amended: if the cancellation mark becomes visible at some progress
callback before the last one would have fired (cooperative observation, and
with the I/O layer reporting `transferred < total` on every callback before
the raise), then no emission of the operation carries fraction 1.0 and the
partially written destination file is deleted. -/
theorem C4_observed_cancel_no_full_fraction_no_file (sched : List TransferStep)
    (k : Nat) (hk : k < sched.length)
    (hshort : ∀ st ∈ sched.take k, st.transferred < st.total) :
    noFullFraction (downloadRun sched (some k)) = true ∧
    (downloadRun sched (some k)).cancelled = true ∧
    (downloadRun sched (some k)).destinationExists = false := by
  have h := runTransferCallbacks_raises periodicDownloadEmit sched 0 k
    (Nat.zero_le k) (by simpa using hk)
  rw [Nat.sub_zero] at h
  simp only [downloadRun, noFullFraction, h]
  refine ⟨?_, trivial, trivial⟩
  rw [List.all_eq_true]
  intro e he
  rcases List.mem_append.mp he with he2 | he4
  · rcases List.mem_cons.mp he2 with rfl | he3
    · decide
    · obtain ⟨st, hst, rfl⟩ := List.mem_map.mp he3
      exact periodicDownloadEmit_fraction_ne_one st (hshort st hst)
  · have he5 := List.mem_singleton.mp he4
    subst he5
    decide

/-- C4 amended, witness: a two-chunk download cancelled at the second
callback emits fractions 0 and 1/2 only, and the partial file is removed. -/
theorem C4_observed_cancel_witness :
    (1 : Nat) < [(⟨50, 100⟩ : TransferStep), ⟨100, 100⟩].length ∧
    (∀ st ∈ [(⟨50, 100⟩ : TransferStep), ⟨100, 100⟩].take 1,
      st.transferred < st.total) ∧
    (noFullFraction (downloadRun [⟨50, 100⟩, ⟨100, 100⟩] (some 1)) = true ∧
     (downloadRun [⟨50, 100⟩, ⟨100, 100⟩] (some 1)).cancelled = true ∧
     (downloadRun [⟨50, 100⟩, ⟨100, 100⟩] (some 1)).destinationExists = false) :=
  ⟨by decide, by decide,
    C4_observed_cancel_no_full_fraction_no_file [⟨50, 100⟩, ⟨100, 100⟩] 1
      (by decide) (by decide)⟩

/-- C5 counterexample: the claim states that a cancelled upload makes a
best-effort attempt to remove the partially written remote file.  The
`except TransferCancelledException` branch of `upload._impl` only emits
`(0.0, "Upload cancelled")`: no removal of the remote destination is ever
attempted, and the partial remote file stays in place. -/
theorem C5_cancelled_upload_attempts_no_cleanup :
    (uploadRun [⟨50, 100⟩] (some 0)).cancelled = true ∧
    (uploadRun [⟨50, 100⟩] (some 0)).cancelCleanupOps = [] ∧
    (uploadRun [⟨50, 100⟩] (some 0)).remoteFileExists = true := by
  decide

/-- C5 amended: when an upload is cancelled and a progress callback observes
the mark, the body emits a final `(0.0, "Upload cancelled")` payload, makes
no attempt to remove the partially written remote file, and that file
remains on the server. -/
theorem C5_cancelled_upload_leaves_remote_file (sched : List TransferStep)
    (k : Nat) (hk : k < sched.length) :
    (uploadRun sched (some k)).cancelled = true ∧
    (uploadRun sched (some k)).cancelCleanupOps = [] ∧
    (uploadRun sched (some k)).remoteFileExists = true ∧
    (uploadRun sched (some k)).emissions.getLast? =
      some { fraction := 0, message := Msg.uploadCancelled } := by
  have h := runTransferCallbacks_raises periodicUploadEmit sched 0 k
    (Nat.zero_le k) (by simpa using hk)
  simp only [uploadRun, h]
  refine ⟨trivial, trivial, trivial, ?_⟩
  exact List.getLast?_concat _

/-- C5 amended, witness. -/
theorem C5_cancelled_upload_witness :
    (0 : Nat) < [(⟨50, 100⟩ : TransferStep)].length ∧
    ((uploadRun [⟨50, 100⟩] (some 0)).cancelled = true ∧
     (uploadRun [⟨50, 100⟩] (some 0)).cancelCleanupOps = [] ∧
     (uploadRun [⟨50, 100⟩] (some 0)).remoteFileExists = true ∧
     (uploadRun [⟨50, 100⟩] (some 0)).emissions.getLast? =
       some { fraction := 0, message := Msg.uploadCancelled }) :=
  ⟨by decide, C5_cancelled_upload_leaves_remote_file [⟨50, 100⟩] 0 (by decide)⟩

/-- C6 counterexample: the claim states that progress reports forward three
values (fraction, status, rate).  The `progress` signal is declared with the
parameter tuple `(float, str)`: two values, with no slot for a transfer
rate, and the emission sites pass exactly a fraction and a status string. -/
theorem C6_progress_signal_has_no_rate :
    progress_signal_params ≠ spec_progress_signal_params ∧
    progress_signal_params.length = 2 := by
  decide

/-- C6 amended: each periodic progress report forwards two values — a
fraction equal to `transferred / total` (lying in 0..1) and a status
message; no transfer rate is computed or forwarded (the payload depends only
on the byte counts, never on elapsed time). -/
theorem C6_progress_two_values (st : TransferStep)
    (hpos : 0 < st.total) (hle : st.transferred ≤ st.total) :
    progress_signal_params.length = 2 ∧
    (periodicDownloadEmit st).fraction = (st.transferred : Rat) / (st.total : Rat) ∧
    0 ≤ (periodicDownloadEmit st).fraction ∧
    (periodicDownloadEmit st).fraction ≤ 1 := by
  have hq : (0 : Rat) < st.total := by exact_mod_cast hpos
  have hfrac : (periodicDownloadEmit st).fraction
      = (st.transferred : Rat) / (st.total : Rat) := by
    simp [periodicDownloadEmit, hpos]
  refine ⟨rfl, hfrac, ?_, ?_⟩
  · rw [hfrac]
    positivity
  · rw [hfrac, div_le_one hq]
    exact_mod_cast hle

/-- C6 amended, witness: 512 of 1024 bytes reports fraction 1/2. -/
theorem C6_progress_two_values_witness :
    (0 : Nat) < 1024 ∧ (512 : Nat) ≤ 1024 ∧
    (progress_signal_params.length = 2 ∧
     (periodicDownloadEmit ⟨512, 1024⟩).fraction = (512 : Rat) / (1024 : Rat) ∧
     0 ≤ (periodicDownloadEmit ⟨512, 1024⟩).fraction ∧
     (periodicDownloadEmit ⟨512, 1024⟩).fraction ≤ 1) :=
  ⟨by decide, by decide,
    C6_progress_two_values ⟨512, 1024⟩ (by decide) (by decide)⟩

/-- `true` when listing the path does not raise — the probe criterion of
`connection.py` lines 188-197. -/
def listSucceeds (s : SftpSession) (p : String) : Bool :=
  match s.listdir_attr p with
  | Except.ok _ => true
  | Except.error _ => false

/-- Substituting a home directory for the leading `~` of `path`. -/
def homeSubst (home path : String) : String :=
  if path == "~" then home else home ++ strDrop1 path

theorem findHome_eq_find? (s : SftpSession) (l : List String) :
    findHome s l = l.find? (listSucceeds s) := by
  induction l with
  | nil => rfl
  | cons h rest ih =>
    simp only [findHome, List.find?, listSucceeds]
    cases s.listdir_attr h with
    | ok v => rfl
    | error e => simpa using ih

/-- C9: for a path that is `~` or starts with `~/`, the resolution is
layered exactly as claimed — substitute `normalize(".")` for `~` when
normalization succeeds; otherwise substitute the first of
`/home/<user>`, `/Users/<user>`, `/export/home/<user>` whose listing
succeeds; and when all three probes fail, substitute `/home/<user>`. -/
theorem C9_home_resolution (s : SftpSession) (user path : String)
    (hp : (path == "~" || startswith path "~/") = true) :
    expandPath s user path =
      match s.normalizeDot with
      | Except.ok home => homeSubst home path
      | Except.error _ =>
        match (probeHomes user).find? (listSucceeds s) with
        | some h => homeSubst h path
        | none => homeSubst ("/home/" ++ user) path := by
  unfold expandPath homeSubst
  rw [if_pos hp]
  cases s.normalizeDot with
  | ok home => rfl
  | error e =>
    rw [findHome_eq_find? s (probeHomes user)]
    cases (probeHomes user).find? (listSucceeds s) with
    | some h => rfl
    | none =>
      by_cases hq : path == "~"
      · have hpath : path = "~" := by simpa using hq
        subst hpath
        have hsw : startswith "~" "~/" = false := by decide
        simp [hsw]
      · have hsw : startswith path "~/" = true := by
          cases h1 : (path == "~") with
          | true => exact absurd h1 hq
          | false => simpa [h1] using hp
        simp [hq, hsw]

/-- C9, witness: with a session whose `normalize` raises and where only
`/Users/bob` is listable, `~/docs` resolves to `/Users/bob/docs`. -/
theorem C9_home_resolution_witness :
    (("~/docs" == "~" || startswith "~/docs" "~/") = true) ∧
    expandPath
      { listdir_attr := fun p =>
          if p == "/Users/bob" then Except.ok [] else Except.error "no such file"
        normalizeDot := Except.error "server lacks realpath"
        mkdirAt := fun _ => Except.ok () }
      "bob" "~/docs" = "/Users/bob/docs" := by
  refine ⟨by decide, ?_⟩
  have h := C9_home_resolution
    { listdir_attr := fun p =>
        if p == "/Users/bob" then Except.ok [] else Except.error "no such file"
      normalizeDot := Except.error "server lacks realpath"
      mkdirAt := fun _ => Except.ok () }
    "bob" "~/docs" (by decide)
  rw [h]
  decide

end Mfatfm
